import Mathlib

/-!
Shallow embedding of
`metadata-ingestion/src/datahub/ingestion/source/unity/proxy_profiling.py`
(class `UnityCatalogProxyProfilingMixin`).

External collaborators (the Databricks workspace client) are modelled as an
environment of response functions; raising `DatabricksError` is modelled with
`Except`; `time.sleep` is modelled by recording the slept durations in an
output trace; the mutable `self.report` is threaded explicitly.
-/

/-- States of a statement, from `databricks.sdk.service.sql.StatementState`. -/
inductive StatementState where
  | PENDING
  | RUNNING
  | SUCCEEDED
  | FAILED
  | CANCELED
  | CLOSED
deriving DecidableEq

/-- The `.value` string of a `StatementState` enum member. -/
def state_value : StatementState → String
  | StatementState.PENDING => "PENDING"
  | StatementState.RUNNING => "RUNNING"
  | StatementState.SUCCEEDED => "SUCCEEDED"
  | StatementState.FAILED => "FAILED"
  | StatementState.CANCELED => "CANCELED"
  | StatementState.CLOSED => "CLOSED"

/-- The error payload of a statement status (`status.error`): message and the
`.value` string of its error code. Messages are modelled as `List Char` so the
classifier's character scanning is directly executable. -/
structure StatementError where
  message : List Char
  error_code : String
deriving DecidableEq

/-- `databricks.sdk.service.sql.StatementStatus`: a state plus error payload. -/
structure StatementStatus where
  state : StatementState
  error : StatementError
deriving DecidableEq

/-- `ExecuteStatementResponse`: statement id plus initial status. -/
structure ExecuteStatementResponse where
  statement_id : String
  status : StatementStatus
deriving DecidableEq

/-- `GetStatementResponse`: the status fetched for a statement id. -/
structure GetStatementResponse where
  statement_id : String
  status : StatementStatus
deriving DecidableEq

/-- `databricks.sdk.core.DatabricksError` as raised by `_raise_if_error`:
positional message plus the `error_code`, `status` and `context` kwargs.
`str(e)` is the `message` field. -/
structure DatabricksError where
  message : List Char
  error_code : String
  status : String
  context : String
deriving DecidableEq

/-- Modelled from the spec: `TableReference` (from `proxy_types`, not under
`src/`) identifies a table by catalog, schema and table name. -/
structure TableReference where
  catalog : String
  schema : String
  table : String
deriving DecidableEq

/-- Modelled from the spec: `TableReference` derives a fully-qualified name
`catalog.schema.table`. -/
def qualified_table_name (ref : TableReference) : String :=
  ref.catalog ++ "." ++ ref.schema ++ "." ++ ref.table

/-- Modelled from the spec: `str(ref)` for a `TableReference`, its
fully-qualified name. -/
def ref_str (ref : TableReference) : String :=
  qualified_table_name ref

/-- `databricks.sdk.service.catalog.TableInfo` restricted to the fields this
module reads: table name, declared column names, and the string property bag. -/
structure TableInfo where
  name : String
  columns : List String
  properties : List (String × String)
deriving DecidableEq

/-- `ColumnProfile` from `proxy_types` (fields as constructed by
`_create_column_profile`). -/
structure ColumnProfile where
  name : String
  null_count : Option Int
  distinct_count : Option Int
  min : Option String
  max : Option String
  avg_len : Option String
  max_len : Option String
  version : Option String
deriving DecidableEq

/-- `TableProfile` from `proxy_types` (fields as constructed by
`_create_table_profile`). -/
structure TableProfile where
  num_rows : Option Int
  total_size : Option Int
  num_columns : Nat
  column_profiles : List ColumnProfile
deriving DecidableEq

/-- The report fields this module mutates (`UnityCatalogReport`).
`profile_table_errors` is a dict from grouping key to a list of
`(str(ref), msg)` samples; `LossyList` is modelled as a plain list (its
bounded-overflow behaviour is out of scope). -/
structure UnityCatalogReport where
  profile_table_timeouts : List String
  profile_table_errors : List (List Char × List (String × List Char))
  num_profile_failed_unsupported_column_type : Nat
  num_profile_failed_int_casts : Nat
deriving DecidableEq

/-- The workspace-client collaborator: responses of
`statement_execution.execute_statement` (by statement text and catalog),
`statement_execution.get_statement` (by statement id and the 0-based index of
the call, so successive polls may observe different statuses), and
`tables.get` (by fully-qualified table name). A `.error` value models the call
itself raising `DatabricksError`. -/
structure Env where
  execute_statement : String → String → Except DatabricksError ExecuteStatementResponse
  get_statement : String → Nat → Except DatabricksError GetStatementResponse
  tables_get : String → Except DatabricksError TableInfo

/-- `_raise_if_error`: raise a `DatabricksError` when the response status is
FAILED, CANCELED or CLOSED, tagging it with the operation-context `key`. -/
def raise_if_error (response_status : StatementStatus) (key : String) :
    Except DatabricksError Unit :=
  if response_status.state = StatementState.FAILED ∨
      response_status.state = StatementState.CANCELED ∨
      response_status.state = StatementState.CLOSED then
    Except.error
      { message := response_status.error.message
        error_code := response_status.error.error_code
        status := state_value response_status.state
        context := key }
  else
    Except.ok ()

/-- `_analyze_table`: build the ANALYZE TABLE statement (appending
`FOR ALL COLUMNS` when `include_columns`), submit it, and raise (context
`"analyze-table"`) if the submission response carries a terminal failure. -/
def analyze_table (env : Env) (ref : TableReference) (include_columns : Bool) :
    Except DatabricksError ExecuteStatementResponse :=
  let statement :=
    "ANALYZE TABLE " ++ ref.schema ++ "." ++ ref.table ++ " COMPUTE STATISTICS"
  let statement := if include_columns then statement ++ " FOR ALL COLUMNS" else statement
  match env.execute_statement statement ref.catalog with
  | Except.error e => Except.error e
  | Except.ok response =>
    match raise_if_error response.status "analyze-table" with
    | Except.error e => Except.error e
    | Except.ok _ => Except.ok response

/-- The `while` loop of `_check_analyze_table_statement_status`.
`backoff_sec` starts at 1 and doubles each iteration; it is represented by its
exponent `i` (so the current backoff is `2 ^ i`). `total_wait_time` accumulates
the scheduled backoff, `n` counts the `get_statement` calls made so far. The
second component of the result is the trace of `time.sleep` durations
(`min backoff (max_wait_secs - total_wait_time)`). -/
def checkLoop (env : Env) (statement_id : String) (max_wait_secs : Nat)
    (status : StatementStatus) (i total_wait_time n : Nat) :
    Except DatabricksError Bool × List Nat :=
  if h : total_wait_time < max_wait_secs ∧ status.state ≠ StatementState.SUCCEEDED then
    let sleep_secs := min (2 ^ i) (max_wait_secs - total_wait_time)
    match env.get_statement statement_id n with
    | Except.error e => (Except.error e, [sleep_secs])
    | Except.ok response =>
      match raise_if_error response.status "get-statement" with
      | Except.error e => (Except.error e, [sleep_secs])
      | Except.ok _ =>
        let rest :=
          checkLoop env statement_id max_wait_secs response.status (i + 1)
            (total_wait_time + 2 ^ i) (n + 1)
        (rest.1, sleep_secs :: rest.2)
  else
    (Except.ok (decide (status.state = StatementState.SUCCEEDED)), [])
termination_by max_wait_secs - total_wait_time
decreasing_by
  simp_wf
  have hp : 0 < 2 ^ i := Nat.pos_pow_of_pos i (by decide)
  omega

/-- `_check_analyze_table_statement_status`: run the backoff loop starting from
the execute response's statement id and initial status, with `backoff_sec = 1`
(exponent 0) and `total_wait_time = 0`. -/
def check_analyze_table_statement_status (env : Env)
    (execute_response : ExecuteStatementResponse) (max_wait_secs : Nat) :
    Except DatabricksError Bool × List Nat :=
  checkLoop env execute_response.statement_id max_wait_secs execute_response.status 0 0 0

/-- First-match association lookup, modelling `dict.get` on the property bag. -/
def lookup_prop : List (String × String) → String → Option String
  | [], _ => none
  | (k, v) :: rest, field => if k = field then some v else lookup_prop rest field

/-- Decimal digit run to a number, for `py_int_parse`. -/
def parse_digits (ds : List Char) : Option Nat :=
  if ds = [] then none
  else if ds.all Char.isDigit then
    some (ds.foldl (fun a c => a * 10 + (c.toNat - 48)) 0)
  else none

/-- Models Python `int()` applied to a string: strip surrounding whitespace,
allow one optional sign, then require a nonempty run of decimal digits
(digit-group underscores are not modelled). Returns `none` where Python raises
`ValueError`. -/
def py_int_parse (s : List Char) : Option Int :=
  let t := ((s.dropWhile Char.isWhitespace).reverse.dropWhile Char.isWhitespace).reverse
  match t with
  | [] => none
  | c :: rest =>
    if c = '-' then (parse_digits rest).map (fun v => -(v : Int))
    else if c = '+' then (parse_digits rest).map (fun v => (v : Int))
    else (parse_digits t).map (fun v => (v : Int))

/-- `_get_int`: read `field` from the property bag; absent keys give `none`;
present but non-parseable values give `none` and increment
`num_profile_failed_int_casts`. -/
def get_int (report : UnityCatalogReport) (table_info : TableInfo) (field : String) :
    Option Int × UnityCatalogReport :=
  match lookup_prop table_info.properties field with
  | some value =>
    match py_int_parse value.toList with
    | some v => (some v, report)
    | none =>
      (none,
        { report with
            num_profile_failed_int_casts := report.num_profile_failed_int_casts + 1 })
  | none => (none, report)

/-- `_create_column_profile`: build one `ColumnProfile` by reading the five
well-known per-column keys (two via `_get_int`, the rest as raw strings). -/
def create_column_profile (report : UnityCatalogReport) (column : String)
    (table_info : TableInfo) : ColumnProfile × UnityCatalogReport :=
  let nc := get_int report table_info
    ("spark.sql.statistics.colStats." ++ column ++ ".nullCount")
  let dc := get_int nc.2 table_info
    ("spark.sql.statistics.colStats." ++ column ++ ".distinctCount")
  ({ name := column
     null_count := nc.1
     distinct_count := dc.1
     min := lookup_prop table_info.properties
       ("spark.sql.statistics.colStats." ++ column ++ ".min")
     max := lookup_prop table_info.properties
       ("spark.sql.statistics.colStats." ++ column ++ ".max")
     avg_len := lookup_prop table_info.properties
       ("spark.sql.statistics.colStats." ++ column ++ ".avgLen")
     max_len := lookup_prop table_info.properties
       ("spark.sql.statistics.colStats." ++ column ++ ".maxLen")
     version := lookup_prop table_info.properties
       ("spark.sql.statistics.colStats." ++ column ++ ".version") }, dc.2)

/-- The list comprehension of `_create_table_profile`: one `ColumnProfile` per
declared column name, threading the report left to right. -/
def create_column_profiles (report : UnityCatalogReport) (columns : List String)
    (table_info : TableInfo) : List ColumnProfile × UnityCatalogReport :=
  match columns with
  | [] => ([], report)
  | column :: rest =>
    let cp := create_column_profile report column table_info
    let cps := create_column_profiles cp.2 rest table_info
    (cp.1 :: cps.1, cps.2)

/-- `_create_table_profile`: read `numRows` and `totalSize`, count declared
columns, and build per-column profiles only when `include_columns`. -/
def create_table_profile (report : UnityCatalogReport) (table_info : TableInfo)
    (include_columns : Bool) : TableProfile × UnityCatalogReport :=
  let columns_names := table_info.columns
  let nr := get_int report table_info "spark.sql.statistics.numRows"
  let ts := get_int nr.2 table_info "spark.sql.statistics.totalSize"
  if include_columns then
    let cps := create_column_profiles ts.2 columns_names table_info
    ({ num_rows := nr.1
       total_size := ts.1
       num_columns := columns_names.length
       column_profiles := cps.1 }, cps.2)
  else
    ({ num_rows := nr.1
       total_size := ts.1
       num_columns := columns_names.length
       column_profiles := [] }, ts.2)

/-- `_get_table_profile`: fetch table metadata by qualified name and build the
profile from it. -/
def get_table_profile (env : Env) (ref : TableReference) (include_columns : Bool)
    (report : UnityCatalogReport) :
    Except DatabricksError TableProfile × UnityCatalogReport :=
  match env.tables_get (qualified_table_name ref) with
  | Except.error e => (Except.error e, report)
  | Except.ok table_info =>
    let p := create_table_profile report table_info include_columns
    (Except.ok p.1, p.2)

/-- The backtick character, `Char.ofNat 96`. -/
def backtick_char : Char := Char.ofNat 96

/-- The single-quote character, `Char.ofNat 39`. -/
def quote_char : Char := Char.ofNat 39

/-- `idx = (str(msg).find(chr(96)) + 1) or (str(msg).find(chr(39)) + 1) or len(str(msg))`:
Python `find` returns -1 when absent, making `find + 1` falsy, so the first
present delimiter wins and otherwise the whole length is used. -/
def base_idx (msg : List Char) : Nat :=
  match msg.findIdx? (fun c => c == backtick_char) with
  | some i => i + 1
  | none =>
    match msg.findIdx? (fun c => c == quote_char) with
    | some i => i + 1
    | none => msg.length

/-- `base_msg = msg[:idx]`: the grouping key for a remote-error message. -/
def base_msg (msg : List Char) : List Char :=
  msg.take (base_idx msg)

/-- `dict.setdefault(key, LossyList()).append(sample)` on an insertion-ordered
association list. -/
def setdefault_append (errors : List (List Char × List (String × List Char)))
    (key : List Char) (sample : String × List Char) :
    List (List Char × List (String × List Char)) :=
  match errors with
  | [] => [(key, [sample])]
  | (k, v) :: rest =>
    if k = key then (k, v ++ [sample]) :: rest
    else (k, v) :: setdefault_append rest key sample

/-- The `except DatabricksError` recording in `get_table_stats`: derive the
grouping key from `str(e)` and append `(str(ref), msg)` under it. -/
def record_error (report : UnityCatalogReport) (ref : TableReference)
    (e : DatabricksError) : UnityCatalogReport :=
  let msg := e.message
  { report with
      profile_table_errors :=
        setdefault_append report.profile_table_errors (base_msg msg) (ref_str ref, msg) }

/-- The error-code token `_should_retry_unsupported_column` looks for. -/
def unsupported_column_token : List Char :=
  "[UNSUPPORTED_FEATURE.ANALYZE_UNSUPPORTED_COLUMN_TYPE]".toList

/-- Python's substring test `needle in haystack`. -/
def contains_sub (needle : List Char) : List Char → Bool
  | [] => needle.isEmpty
  | c :: rest => needle.isPrefixOf (c :: rest) || contains_sub needle rest

/-- `_should_retry_unsupported_column`: when the message contains the
unsupported-column token, increment
`num_profile_failed_unsupported_column_type` and signal retryable. -/
def should_retry_unsupported_column (report : UnityCatalogReport)
    (e : DatabricksError) : Bool × UnityCatalogReport :=
  if contains_sub unsupported_column_token e.message then
    (true,
      { report with
          num_profile_failed_unsupported_column_type :=
            report.num_profile_failed_unsupported_column_type + 1 })
  else
    (false, report)

/-- The `try` block of `get_table_stats`: optionally submit ANALYZE, poll it,
record a timeout (returning `none` without raising) when polling exhausts the
budget, and otherwise fetch and build the profile. A `.error` result models a
`DatabricksError` reaching the `except` clause. -/
def get_table_stats_attempt (env : Env) (ref : TableReference) (max_wait_secs : Nat)
    (call_analyze include_columns : Bool) (report : UnityCatalogReport) :
    Except DatabricksError (Option TableProfile) × UnityCatalogReport :=
  if call_analyze then
    match analyze_table env ref include_columns with
    | Except.error e => (Except.error e, report)
    | Except.ok response =>
      match (check_analyze_table_statement_status env response max_wait_secs).1 with
      | Except.error e => (Except.error e, report)
      | Except.ok success =>
        if success then
          match get_table_profile env ref include_columns report with
          | (Except.error e, r) => (Except.error e, r)
          | (Except.ok p, r) => (Except.ok (some p), r)
        else
          (Except.ok none,
            { report with
                profile_table_timeouts :=
                  report.profile_table_timeouts ++ [ref_str ref] })
  else
    match get_table_profile env ref include_columns report with
    | (Except.error e, r) => (Except.error e, r)
    | (Except.ok p, r) => (Except.ok (some p), r)

/-- `get_table_stats`: run the `try` block; on a `DatabricksError`, record it
under its grouping key, and — only when `call_analyze` and `include_columns`
are both true (short-circuit) and the classifier signals retryable — retry the
whole call once with `include_columns := false`; otherwise return `None`. -/
def get_table_stats (env : Env) (ref : TableReference) (max_wait_secs : Nat)
    (call_analyze include_columns : Bool) (report : UnityCatalogReport) :
    Option TableProfile × UnityCatalogReport :=
  match get_table_stats_attempt env ref max_wait_secs call_analyze include_columns report with
  | (Except.ok res, r1) => (res, r1)
  | (Except.error e, r1) =>
    if h : (call_analyze && include_columns) = true then
      match should_retry_unsupported_column (record_error r1 ref e) e with
      | (true, r3) => get_table_stats env ref max_wait_secs call_analyze false r3
      | (false, r3) => (none, r3)
    else
      (none, record_error r1 ref e)
termination_by include_columns.toNat
decreasing_by
  simp_wf
  simp only [Bool.and_eq_true] at h
  simp [h.2]

/-! Concrete collaborators and inputs used by the witness theorems. -/

/-- An empty report. -/
def report0 : UnityCatalogReport :=
  { profile_table_timeouts := []
    profile_table_errors := []
    num_profile_failed_unsupported_column_type := 0
    num_profile_failed_int_casts := 0 }

/-- A concrete table reference. -/
def refT : TableReference :=
  { catalog := "main", schema := "sch", table := "tbl" }

/-- A PENDING statement status. -/
def pending_status : StatementStatus :=
  { state := StatementState.PENDING, error := { message := [], error_code := "" } }

/-- An execute response whose statement is still PENDING. -/
def pending_exec : ExecuteStatementResponse :=
  { statement_id := "stmt-1", status := pending_status }

/-- A poll response whose statement is still PENDING. -/
def pending_get : GetStatementResponse :=
  { statement_id := "stmt-1", status := pending_status }

/-- Table metadata with no columns and an empty property bag. -/
def ti_empty : TableInfo :=
  { name := "tbl", columns := [], properties := [] }

/-- An environment where submissions stay PENDING forever and metadata fetch
succeeds with empty metadata. -/
def env_ok : Env :=
  { execute_statement := fun _ _ => Except.ok pending_exec
    get_statement := fun _ _ => Except.ok pending_get
    tables_get := fun _ => Except.ok ti_empty }

/-- A FAILED statement status whose error message is the unsupported-column
token itself. -/
def failed_status : StatementStatus :=
  { state := StatementState.FAILED
    error := { message := unsupported_column_token, error_code := "UNSUPPORTED_FEATURE" } }

/-- An execute response reporting immediate failure. -/
def failed_exec : ExecuteStatementResponse :=
  { statement_id := "stmt-2", status := failed_status }

/-- An environment whose submissions fail immediately with the
unsupported-column error. -/
def env_failed : Env :=
  { execute_statement := fun _ _ => Except.ok failed_exec
    get_statement := fun _ _ => Except.ok pending_get
    tables_get := fun _ => Except.ok ti_empty }

/-- The `DatabricksError` that `_raise_if_error` raises for `failed_exec`
under context `"analyze-table"`. -/
def err_unsupported : DatabricksError :=
  { message := unsupported_column_token
    error_code := "UNSUPPORTED_FEATURE"
    status := "FAILED"
    context := "analyze-table" }

/-- Table metadata whose `numRows` statistic is not integer-parseable. -/
def ti_bad_num : TableInfo :=
  { name := "tbl", columns := []
    properties := [("spark.sql.statistics.numRows", "not-a-number")] }

/-! Unfolding equations for the two well-founded recursive definitions. -/

/-- `checkLoop` when the loop guard fails: no sleep, result reflects the
current status. -/
theorem checkLoop_eq_exit (env : Env) (sid : String) (m : Nat)
    (status : StatementStatus) (i total n : Nat)
    (h : ¬(total < m ∧ status.state ≠ StatementState.SUCCEEDED)) :
    checkLoop env sid m status i total n =
      (Except.ok (decide (status.state = StatementState.SUCCEEDED)), []) := by
  rw [checkLoop, dif_neg h]

/-- `checkLoop` when the loop guard holds: sleep
`min (2 ^ i) (m - total)`, poll, raise on terminal failure, else continue with
doubled backoff and accumulated wait. -/
theorem checkLoop_eq_step (env : Env) (sid : String) (m : Nat)
    (status : StatementStatus) (i total n : Nat)
    (h : total < m ∧ status.state ≠ StatementState.SUCCEEDED) :
    checkLoop env sid m status i total n =
      match env.get_statement sid n with
      | Except.error e => (Except.error e, [min (2 ^ i) (m - total)])
      | Except.ok response =>
        match raise_if_error response.status "get-statement" with
        | Except.error e => (Except.error e, [min (2 ^ i) (m - total)])
        | Except.ok _ =>
          ((checkLoop env sid m response.status (i + 1) (total + 2 ^ i) (n + 1)).1,
            min (2 ^ i) (m - total) ::
              (checkLoop env sid m response.status (i + 1) (total + 2 ^ i) (n + 1)).2) := by
  rw [checkLoop, dif_pos h]

/-- Unfolding equation of `get_table_stats`. -/
theorem get_table_stats_eq (env : Env) (ref : TableReference) (m : Nat)
    (ca ic : Bool) (r : UnityCatalogReport) :
    get_table_stats env ref m ca ic r =
      match get_table_stats_attempt env ref m ca ic r with
      | (Except.ok res, r1) => (res, r1)
      | (Except.error e, r1) =>
        if (ca && ic) = true then
          match should_retry_unsupported_column (record_error r1 ref e) e with
          | (true, r3) => get_table_stats env ref m ca false r3
          | (false, r3) => (none, r3)
        else
          (none, record_error r1 ref e) := by
  rw [get_table_stats]
  rfl

/-! Frame lemmas: nothing in the `try` block or the error recording touches
`num_profile_failed_unsupported_column_type`. -/

/-- `_get_int` never changes the unsupported-column counter. -/
theorem get_int_unsup_frame (r : UnityCatalogReport) (ti : TableInfo) (f : String) :
    (get_int r ti f).2.num_profile_failed_unsupported_column_type =
      r.num_profile_failed_unsupported_column_type := by
  unfold get_int
  split
  · split
    · rfl
    · rfl
  · rfl

/-- `_create_column_profile` never changes the unsupported-column counter. -/
theorem create_column_profile_unsup_frame (r : UnityCatalogReport) (c : String)
    (ti : TableInfo) :
    (create_column_profile r c ti).2.num_profile_failed_unsupported_column_type =
      r.num_profile_failed_unsupported_column_type := by
  simp [create_column_profile, get_int_unsup_frame]

/-- The column-profile fold never changes the unsupported-column counter. -/
theorem create_column_profiles_unsup_frame (cols : List String) :
    ∀ (r : UnityCatalogReport) (ti : TableInfo),
      (create_column_profiles r cols ti).2.num_profile_failed_unsupported_column_type =
        r.num_profile_failed_unsupported_column_type := by
  induction cols with
  | nil => intro r ti; rfl
  | cons c rest ih =>
    intro r ti
    simp [create_column_profiles, ih, create_column_profile_unsup_frame]

/-- `_create_table_profile` never changes the unsupported-column counter. -/
theorem create_table_profile_unsup_frame (r : UnityCatalogReport) (ti : TableInfo)
    (ic : Bool) :
    (create_table_profile r ti ic).2.num_profile_failed_unsupported_column_type =
      r.num_profile_failed_unsupported_column_type := by
  cases ic <;>
    simp [create_table_profile, get_int_unsup_frame, create_column_profiles_unsup_frame]

/-- `_get_table_profile` never changes the unsupported-column counter. -/
theorem get_table_profile_unsup_frame (env : Env) (ref : TableReference) (ic : Bool)
    (r : UnityCatalogReport) :
    (get_table_profile env ref ic r).2.num_profile_failed_unsupported_column_type =
      r.num_profile_failed_unsupported_column_type := by
  unfold get_table_profile
  cases env.tables_get (qualified_table_name ref) with
  | error e => rfl
  | ok ti => simp [create_table_profile_unsup_frame]

/-- The whole `try` block never changes the unsupported-column counter. -/
theorem attempt_unsup_frame (env : Env) (ref : TableReference) (m : Nat)
    (ca ic : Bool) (r : UnityCatalogReport) :
    (get_table_stats_attempt env ref m ca ic r).2.num_profile_failed_unsupported_column_type =
      r.num_profile_failed_unsupported_column_type := by
  unfold get_table_stats_attempt
  cases ca with
  | false =>
    rw [if_neg (by simp)]
    have hf := get_table_profile_unsup_frame env ref ic r
    split <;> rename_i x r2 heq <;> rw [heq] at hf <;> exact hf
  | true =>
    rw [if_pos rfl]
    split
    · rfl
    split
    · rfl
    split
    · have hf := get_table_profile_unsup_frame env ref ic r
      split <;> rename_i x r2 heq <;> rw [heq] at hf <;> exact hf
    · rfl

/-- Error recording never changes the unsupported-column counter. -/
theorem record_error_unsup_frame (r : UnityCatalogReport) (ref : TableReference)
    (e : DatabricksError) :
    (record_error r ref e).num_profile_failed_unsupported_column_type =
      r.num_profile_failed_unsupported_column_type := rfl

/-- C8: if a numeric statistics key is present but its value is not
integer-parseable, `_get_int` yields absence for the field, increments the
parse-failure counter `num_profile_failed_int_casts` exactly once, and (being
a total function) lets no exception escape. -/
theorem get_int_parse_failure (r : UnityCatalogReport) (ti : TableInfo)
    (field v : String)
    (hv : lookup_prop ti.properties field = some v)
    (hparse : py_int_parse v.toList = none) :
    get_int r ti field =
      (none,
        { r with num_profile_failed_int_casts := r.num_profile_failed_int_casts + 1 }) := by
  unfold get_int
  simp only [hv]
  rw [hparse]

/-- Witness for C8 at a bag where `numRows` holds `"not-a-number"`. -/
theorem get_int_parse_failure_witness :
    lookup_prop ti_bad_num.properties "spark.sql.statistics.numRows" = some "not-a-number" ∧
    py_int_parse "not-a-number".toList = none ∧
    get_int report0 ti_bad_num "spark.sql.statistics.numRows" =
      (none,
        { report0 with
            num_profile_failed_int_casts := report0.num_profile_failed_int_casts + 1 }) :=
  ⟨rfl, rfl,
    get_int_parse_failure report0 ti_bad_num "spark.sql.statistics.numRows"
      "not-a-number" rfl rfl⟩

/-- C10: if a numeric statistics key is absent from the property bag entirely,
`_get_int` yields absence and leaves the report (in particular the
parse-failure counter) unchanged. -/
theorem get_int_absent_key (r : UnityCatalogReport) (ti : TableInfo) (field : String)
    (h : lookup_prop ti.properties field = none) :
    get_int r ti field = (none, r) := by
  unfold get_int
  rw [h]

/-- Witness for C10 at an empty property bag. -/
theorem get_int_absent_key_witness :
    lookup_prop ti_empty.properties "spark.sql.statistics.numRows" = none ∧
    get_int report0 ti_empty "spark.sql.statistics.numRows" = (none, report0) :=
  ⟨rfl, get_int_absent_key report0 ti_empty "spark.sql.statistics.numRows" rfl⟩

/-- An error whose message names table a.b.c in backticks. -/
def err_table_a : DatabricksError :=
  { message := "Table `a.b.c` not found".toList
    error_code := "TABLE_OR_VIEW_NOT_FOUND"
    status := "FAILED"
    context := "get-statement" }

/-- An error whose message names table d.e.f in backticks. -/
def err_table_d : DatabricksError :=
  { message := "Table `d.e.f` not found".toList
    error_code := "TABLE_OR_VIEW_NOT_FOUND"
    status := "FAILED"
    context := "get-statement" }

/-- C7: the report grouping key is the message text up to and including the
first backtick, or failing that up to and including the first single-quote, or
else the whole message; recording the two table-not-found errors groups them
under the single key ``Table ` `` while both full messages are retained as
distinct samples under that key. -/
theorem error_grouping_key_spec :
    (∀ msg : List Char,
      base_msg msg =
        match msg.findIdx? (fun c => c == backtick_char) with
        | some i => msg.take (i + 1)
        | none =>
          match msg.findIdx? (fun c => c == quote_char) with
          | some j => msg.take (j + 1)
          | none => msg) ∧
    base_msg err_table_a.message = "Table `".toList ∧
    base_msg err_table_d.message = "Table `".toList ∧
    (record_error (record_error report0 refT err_table_a) refT err_table_d).profile_table_errors =
      [("Table `".toList,
        [(ref_str refT, err_table_a.message), (ref_str refT, err_table_d.message)])] ∧
    err_table_a.message ≠ err_table_d.message := by
  refine ⟨?_, rfl, rfl, by decide, by decide⟩
  intro msg
  unfold base_msg base_idx
  cases hb : msg.findIdx? (fun c => c == backtick_char) with
  | some i => rfl
  | none =>
    cases hq : msg.findIdx? (fun c => c == quote_char) with
    | some j => rfl
    | none => simp [List.take_length]

/-- If the `try` block produces a profile, then either no statement was
required (`call_analyze = false`) or the submitted statement's poll returned
`Except.ok true` (SUCCEEDED observed). -/
theorem attempt_some_implies_succeeded (env : Env) (ref : TableReference) (m : Nat)
    (ca ic : Bool) (r r1 : UnityCatalogReport) (p : TableProfile)
    (h : get_table_stats_attempt env ref m ca ic r = (Except.ok (some p), r1)) :
    ca = false ∨ ∃ resp, analyze_table env ref ic = Except.ok resp ∧
      (check_analyze_table_statement_status env resp m).1 = Except.ok true := by
  cases ca with
  | false => exact Or.inl rfl
  | true =>
    right
    unfold get_table_stats_attempt at h
    rw [if_pos rfl] at h
    cases ha : analyze_table env ref ic with
    | error e => rw [ha] at h; simp at h
    | ok resp =>
      rw [ha] at h
      simp only at h
      cases hc : (check_analyze_table_statement_status env resp m).1 with
      | error e => rw [hc] at h; simp at h
      | ok success =>
        rw [hc] at h
        cases success with
        | false => simp at h
        | true => exact ⟨resp, rfl, hc⟩

/-- C1: a `TableProfile` is returned by `get_table_stats` only when either
`call_analyze` is false (no statement was submitted) or a submitted statement
(of the original or of the column-less retried call) was polled to
`Except.ok true`, i.e. observed in state SUCCEEDED; in every other case the
call returns `none`. -/
theorem get_table_stats_profile_requires_succeeded (env : Env)
    (ref : TableReference) (m : Nat) (ca ic : Bool) (r r' : UnityCatalogReport)
    (p : TableProfile)
    (h : get_table_stats env ref m ca ic r = (some p, r')) :
    ca = false ∨ ∃ ic2 resp, analyze_table env ref ic2 = Except.ok resp ∧
      (check_analyze_table_statement_status env resp m).1 = Except.ok true := by
  rw [get_table_stats_eq] at h
  cases h0 : get_table_stats_attempt env ref m ca ic r with
  | mk fst r1 =>
    cases fst with
    | ok res =>
      simp only [h0, Prod.mk.injEq] at h
      rcases attempt_some_implies_succeeded env ref m ca ic r r1 p
          (by rw [h0, h.1]) with hca | hs
      · exact Or.inl hca
      · exact Or.inr ⟨ic, hs⟩
    | error e =>
      simp only [h0] at h
      by_cases hca : (ca && ic) = true
      · rw [if_pos hca] at h
        cases hr : should_retry_unsupported_column (record_error r1 ref e) e with
        | mk b r3 =>
          simp only [hr] at h
          cases b with
          | false => simp at h
          | true =>
            simp only at h
            rw [get_table_stats_eq] at h
            cases h1 : get_table_stats_attempt env ref m ca false r3 with
            | mk fst2 r2 =>
              cases fst2 with
              | ok res2 =>
                simp only [h1, Prod.mk.injEq] at h
                rcases attempt_some_implies_succeeded env ref m ca false r3 r2 p
                    (by rw [h1, h.1]) with hca2 | hs
                · exact Or.inl hca2
                · exact Or.inr ⟨false, hs⟩
              | error e2 =>
                simp only [h1] at h
                rw [if_neg (by simp)] at h
                simp at h
      · rw [if_neg hca] at h
        simp at h

/-- Witness for C1: with `call_analyze = false` the call returns a profile. -/
theorem get_table_stats_profile_requires_succeeded_witness :
    get_table_stats env_ok refT 0 false false report0 =
      (some { num_rows := none, total_size := none, num_columns := 0,
              column_profiles := [] }, report0) ∧
    (false = false ∨ ∃ ic2 resp, analyze_table env_ok refT ic2 = Except.ok resp ∧
      (check_analyze_table_statement_status env_ok resp 0).1 = Except.ok true) :=
  ⟨by rw [get_table_stats_eq]; rfl, by
    refine get_table_stats_profile_requires_succeeded env_ok refT 0 false false
      report0 report0
      { num_rows := none, total_size := none, num_columns := 0, column_profiles := [] }
      ?_
    rw [get_table_stats_eq]; rfl⟩

/-- A call with `include_columns = false` never recurses: it runs the `try`
block once and, on error, records it and returns absence. -/
theorem get_table_stats_no_retry (env : Env) (ref : TableReference) (m : Nat)
    (ca : Bool) (r3 : UnityCatalogReport) :
    get_table_stats env ref m ca false r3 =
      match get_table_stats_attempt env ref m ca false r3 with
      | (Except.ok res, r2) => (res, r2)
      | (Except.error e2, r2) => (none, record_error r2 ref e2) := by
  rw [get_table_stats_eq]
  cases get_table_stats_attempt env ref m ca false r3 with
  | mk fst2 r2 =>
    cases fst2 with
    | ok res => rfl
    | error e2 => simp

/-- C2: a `DatabricksError` raised anywhere in the `try` block (submission,
polling, or metadata fetch) never propagates out of `get_table_stats`: it is
caught exactly once, recorded in the report via `record_error`, and the call
returns absence or the result of the single narrowed retry. Moreover a
narrowed call (`include_columns = false`) whose `try` block errors returns
absence after recording, with no further retry. -/
theorem get_table_stats_never_raises (env : Env) (ref : TableReference) (m : Nat)
    (ca ic : Bool) (r r1 : UnityCatalogReport) (e : DatabricksError)
    (h : get_table_stats_attempt env ref m ca ic r = (Except.error e, r1)) :
    (get_table_stats env ref m ca ic r =
      if (ca && ic) = true then
        match should_retry_unsupported_column (record_error r1 ref e) e with
        | (true, r3) => get_table_stats env ref m ca false r3
        | (false, r3) => (none, r3)
      else (none, record_error r1 ref e)) ∧
    (∀ (r3 r2 : UnityCatalogReport) (e2 : DatabricksError),
      get_table_stats_attempt env ref m ca false r3 = (Except.error e2, r2) →
      get_table_stats env ref m ca false r3 = (none, record_error r2 ref e2)) := by
  constructor
  · rw [get_table_stats_eq]
    simp only [h]
  · intro r3 r2 e2 h2
    rw [get_table_stats_eq]
    simp only [h2]
    rw [if_neg (by simp)]

/-- Witness for C2: a submission that fails immediately. -/
theorem get_table_stats_never_raises_witness :
    get_table_stats_attempt env_failed refT 0 true true report0 =
      (Except.error err_unsupported, report0) ∧
    get_table_stats env_failed refT 0 true true report0 =
      (if (true && true) = true then
        match should_retry_unsupported_column (record_error report0 refT err_unsupported)
            err_unsupported with
        | (true, r3) => get_table_stats env_failed refT 0 true false r3
        | (false, r3) => (none, r3)
      else (none, record_error report0 refT err_unsupported)) :=
  ⟨rfl,
    (get_table_stats_never_raises env_failed refT 0 true true report0 report0
      err_unsupported rfl).1⟩

/-- C3: when the `try` block raises an error whose message contains the
unsupported-column token and both `call_analyze` and `include_columns` are
true, `get_table_stats` retries the whole call exactly once with
`include_columns := false`, and that retried call resolves without any further
retry (the right-hand side applies the `try` block once and, on error, returns
absence) — recursion depth is at most 1. -/
theorem get_table_stats_retry_once (env : Env) (ref : TableReference) (m : Nat)
    (r r1 : UnityCatalogReport) (e : DatabricksError)
    (h : get_table_stats_attempt env ref m true true r = (Except.error e, r1))
    (htok : contains_sub unsupported_column_token e.message = true) :
    get_table_stats env ref m true true r =
      match get_table_stats_attempt env ref m true false
          ((should_retry_unsupported_column (record_error r1 ref e) e).2) with
      | (Except.ok res, r2) => (res, r2)
      | (Except.error e2, r2) => (none, record_error r2 ref e2) := by
  have hretry : should_retry_unsupported_column (record_error r1 ref e) e =
      (true,
        { record_error r1 ref e with
            num_profile_failed_unsupported_column_type :=
              (record_error r1 ref e).num_profile_failed_unsupported_column_type + 1 }) := by
    unfold should_retry_unsupported_column
    rw [if_pos htok]
  rw [get_table_stats_eq]
  simp only [h]
  rw [if_pos (show (true && true) = true by rfl)]
  simp only [hretry]
  exact get_table_stats_no_retry env ref m true _

/-- Witness for C3: a failing submission with the unsupported-column message
and both flags true. -/
theorem get_table_stats_retry_once_witness :
    get_table_stats_attempt env_failed refT 0 true true report0 =
      (Except.error err_unsupported, report0) ∧
    contains_sub unsupported_column_token err_unsupported.message = true ∧
    get_table_stats env_failed refT 0 true true report0 =
      (match get_table_stats_attempt env_failed refT 0 true false
          ((should_retry_unsupported_column (record_error report0 refT err_unsupported)
            err_unsupported).2) with
      | (Except.ok res, r2) => (res, r2)
      | (Except.error e2, r2) => (none, record_error r2 refT e2)) :=
  ⟨rfl, by decide,
    get_table_stats_retry_once env_failed refT 0 report0 report0 err_unsupported rfl
      (by decide)⟩

/-- C9: when the `try` block raises any error (even one containing the
unsupported-column token) while `call_analyze` is false or `include_columns`
is false, the counter `num_profile_failed_unsupported_column_type` is left
unchanged — short-circuit evaluation means the classifier is never invoked. -/
theorem unsupported_counter_frame (env : Env) (ref : TableReference) (m : Nat)
    (ca ic : Bool) (r r1 : UnityCatalogReport) (e : DatabricksError)
    (h : get_table_stats_attempt env ref m ca ic r = (Except.error e, r1))
    (hflags : ca = false ∨ ic = false) :
    (get_table_stats env ref m ca ic r).2.num_profile_failed_unsupported_column_type =
      r.num_profile_failed_unsupported_column_type := by
  have hand : (ca && ic) = false := by rcases hflags with hh | hh <;> simp [hh]
  have hatt := attempt_unsup_frame env ref m ca ic r
  rw [h] at hatt
  rw [get_table_stats_eq]
  simp only [h]
  rw [if_neg (by simp [hand])]
  calc (none, record_error r1 ref e).2.num_profile_failed_unsupported_column_type
      = r1.num_profile_failed_unsupported_column_type := record_error_unsup_frame r1 ref e
    _ = r.num_profile_failed_unsupported_column_type := hatt

/-- Witness for C9: a failing submission whose message contains the token,
with `include_columns = false`. -/
theorem unsupported_counter_frame_witness :
    get_table_stats_attempt env_failed refT 0 true false report0 =
      (Except.error err_unsupported, report0) ∧
    (get_table_stats env_failed refT 0 true false report0).2.num_profile_failed_unsupported_column_type =
      report0.num_profile_failed_unsupported_column_type :=
  ⟨rfl,
    unsupported_counter_frame env_failed refT 0 true false report0 report0
      err_unsupported rfl (Or.inr rfl)⟩

/-- If the current status and every polled status stay PENDING or RUNNING,
the loop returns `Except.ok false` (exhausts the budget without raising). -/
theorem checkLoop_pending_false (env : Env) (sid : String) (m : Nat)
    (hp : ∀ k, ∃ g, env.get_statement sid k = Except.ok g ∧
        (g.status.state = StatementState.PENDING ∨
          g.status.state = StatementState.RUNNING)) :
    ∀ (fuel : Nat) (status : StatementStatus) (i total n : Nat), m - total ≤ fuel →
      (status.state = StatementState.PENDING ∨
        status.state = StatementState.RUNNING) →
      (checkLoop env sid m status i total n).1 = Except.ok false := by
  intro fuel
  induction fuel with
  | zero =>
    intro status i total n hf hs
    rw [checkLoop_eq_exit env sid m status i total n
      (fun hcon => absurd hcon.1 (by omega))]
    rcases hs with hh | hh <;> simp [hh]
  | succ fuel ih =>
    intro status i total n hf hs
    by_cases hlt : total < m
    · have hne : status.state ≠ StatementState.SUCCEEDED := by
        rcases hs with hh | hh <;> simp [hh]
      rw [checkLoop_eq_step env sid m status i total n ⟨hlt, hne⟩]
      obtain ⟨g, hg, hgs⟩ := hp n
      have hre : raise_if_error g.status "get-statement" = Except.ok () := by
        unfold raise_if_error
        rcases hgs with hh | hh <;> simp [hh]
      simp only [hg, hre]
      exact ih g.status (i + 1) (total + 2 ^ i) (n + 1)
        (by have := Nat.pos_pow_of_pos i (show 0 < 2 by decide); omega) hgs
    · rw [checkLoop_eq_exit env sid m status i total n (fun hcon => absurd hcon.1 hlt)]
      rcases hs with hh | hh <;> simp [hh]

/-- C5: if the statement never reaches SUCCEEDED within the wait budget while
remaining non-terminal (PENDING/RUNNING), the poller returns
`Except.ok false` without raising, and `get_table_stats` (with
`call_analyze = true`) appends the table reference to the report's timeout
list and returns absence without raising. -/
theorem get_table_stats_timeout_absence (env : Env) (ref : TableReference)
    (m : Nat) (ic : Bool) (r : UnityCatalogReport)
    (resp : ExecuteStatementResponse)
    (hexec : analyze_table env ref ic = Except.ok resp)
    (hinit : resp.status.state = StatementState.PENDING ∨
      resp.status.state = StatementState.RUNNING)
    (hp : ∀ k, ∃ g, env.get_statement resp.statement_id k = Except.ok g ∧
        (g.status.state = StatementState.PENDING ∨
          g.status.state = StatementState.RUNNING)) :
    (check_analyze_table_statement_status env resp m).1 = Except.ok false ∧
    get_table_stats env ref m true ic r =
      (none,
        { r with profile_table_timeouts := r.profile_table_timeouts ++ [ref_str ref] }) := by
  have hcheck : (check_analyze_table_statement_status env resp m).1 = Except.ok false := by
    unfold check_analyze_table_statement_status
    exact checkLoop_pending_false env resp.statement_id m hp m resp.status 0 0 0
      (by omega) hinit
  refine ⟨hcheck, ?_⟩
  have hatt : get_table_stats_attempt env ref m true ic r =
      (Except.ok none,
        { r with profile_table_timeouts := r.profile_table_timeouts ++ [ref_str ref] }) := by
    unfold get_table_stats_attempt
    rw [if_pos rfl]
    simp only [hexec, hcheck]
    rw [if_neg (by simp)]
  rw [get_table_stats_eq]
  simp only [hatt]

/-- Witness for C5: budget 0 with an always-PENDING statement. -/
theorem get_table_stats_timeout_absence_witness :
    (check_analyze_table_statement_status env_ok pending_exec 0).1 = Except.ok false ∧
    get_table_stats env_ok refT 0 true true report0 =
      (none,
        { report0 with
            profile_table_timeouts := report0.profile_table_timeouts ++ [ref_str refT] }) :=
  get_table_stats_timeout_absence env_ok refT 0 true report0 pending_exec rfl
    (Or.inl rfl) (fun _ => ⟨pending_get, rfl, Or.inl rfl⟩)

/-- Every non-error result of the loop is `Except.ok` of the SUCCEEDED test
applied to a status the loop actually inspected: the status it was started
with, or one fetched by some `get_statement` call. -/
theorem checkLoop_reflects (env : Env) (sid : String) (m : Nat) :
    ∀ (fuel : Nat) (status : StatementStatus) (i total n : Nat), m - total ≤ fuel →
      (∃ e, (checkLoop env sid m status i total n).1 = Except.error e) ∨
      (∃ s : StatementStatus,
        (s = status ∨ ∃ k g, env.get_statement sid k = Except.ok g ∧ s = g.status) ∧
        (checkLoop env sid m status i total n).1 =
          Except.ok (decide (s.state = StatementState.SUCCEEDED))) := by
  intro fuel
  induction fuel with
  | zero =>
    intro status i total n hf
    right
    exact ⟨status, Or.inl rfl, by
      rw [checkLoop_eq_exit env sid m status i total n
        (fun hcon => absurd hcon.1 (by omega))]⟩
  | succ fuel ih =>
    intro status i total n hf
    by_cases hg : total < m ∧ status.state ≠ StatementState.SUCCEEDED
    · rw [checkLoop_eq_step env sid m status i total n hg]
      cases hq : env.get_statement sid n with
      | error e => exact Or.inl ⟨e, by simp⟩
      | ok g =>
        cases hr : raise_if_error g.status "get-statement" with
        | error e => exact Or.inl ⟨e, by simp [hr]⟩
        | ok u =>
          have hfuel : m - (total + 2 ^ i) ≤ fuel := by
            have := Nat.pos_pow_of_pos i (show 0 < 2 by decide)
            omega
          rcases ih g.status (i + 1) (total + 2 ^ i) (n + 1) hfuel with
            ⟨e, he⟩ | ⟨s, hsrc, heq⟩
          · exact Or.inl ⟨e, by simp [hr, he]⟩
          · refine Or.inr ⟨s, ?_, by simp [hr, heq]⟩
            rcases hsrc with hh | ⟨k, g2, hk, hs2⟩
            · exact Or.inr ⟨n, g, hq, hh⟩
            · exact Or.inr ⟨k, g2, hk, hs2⟩
    · right
      exact ⟨status, Or.inl rfl, by rw [checkLoop_eq_exit env sid m status i total n hg]⟩

/-- C6: for every `max_wait_secs ≥ 0` the poller inspects at least one status
and (unless it raises) its boolean result is the SUCCEEDED test of an
inspected status — the initial one or one fetched by a poll; in particular
with `max_wait_secs = 0` it performs no sleep and no poll, and its result is
exactly the SUCCEEDED test of the initial status. -/
theorem check_status_reflects_observed (env : Env)
    (resp : ExecuteStatementResponse) (m : Nat) :
    ((∃ e, (check_analyze_table_statement_status env resp m).1 = Except.error e) ∨
      (∃ s : StatementStatus,
        (s = resp.status ∨
          ∃ k g, env.get_statement resp.statement_id k = Except.ok g ∧ s = g.status) ∧
        (check_analyze_table_statement_status env resp m).1 =
          Except.ok (decide (s.state = StatementState.SUCCEEDED)))) ∧
    check_analyze_table_statement_status env resp 0 =
      (Except.ok (decide (resp.status.state = StatementState.SUCCEEDED)), []) := by
  constructor
  · unfold check_analyze_table_statement_status
    exact checkLoop_reflects env resp.statement_id m m resp.status 0 0 0 (by omega)
  · unfold check_analyze_table_statement_status
    exact checkLoop_eq_exit env resp.statement_id 0 resp.status 0 0 0
      (fun hcon => absurd hcon.1 (by omega))

/-- Shape of the sleep trace: starting at backoff exponent `i` with
`total_wait_time = 2 ^ i - 1` (the invariant of the loop, which holds at entry
with `i = 0`), the trace is an initial segment of the capped doubling
schedule, and a nonempty trace keeps every used exponent below
`⌈log2 (max_wait_secs + 1)⌉`. -/
theorem checkLoop_trace_shape (env : Env) (sid : String) (m : Nat) :
    ∀ (fuel : Nat) (status : StatementStatus) (i total n : Nat),
      m - total ≤ fuel → total = 2 ^ i - 1 →
      ∃ L, (i + L ≤ Nat.clog 2 (m + 1) ∨ L = 0) ∧
        (checkLoop env sid m status i total n).2 =
          (List.range L).map (fun j => min (2 ^ (i + j)) (m - (2 ^ (i + j) - 1))) := by
  intro fuel
  induction fuel with
  | zero =>
    intro status i total n hf ht
    refine ⟨0, Or.inr rfl, ?_⟩
    rw [checkLoop_eq_exit env sid m status i total n
      (fun hcon => absurd hcon.1 (by omega))]
    simp
  | succ fuel ih =>
    intro status i total n hf ht
    subst ht
    by_cases hg : 2 ^ i - 1 < m ∧ status.state ≠ StatementState.SUCCEEDED
    case neg =>
      refine ⟨0, Or.inr rfl, ?_⟩
      rw [checkLoop_eq_exit env sid m status i (2 ^ i - 1) n hg]
      simp
    case pos =>
      have hpow : 0 < 2 ^ i := Nat.pos_pow_of_pos i (show 0 < 2 by decide)
      have h2im : 2 ^ i ≤ m := by omega
      have hi : i < Nat.clog 2 (m + 1) := by
        have hle : m + 1 ≤ 2 ^ Nat.clog 2 (m + 1) :=
          Nat.le_pow_clog (by norm_num) (m + 1)
        have h2 : 2 ^ i < 2 ^ Nat.clog 2 (m + 1) := by omega
        exact (Nat.pow_lt_pow_iff_right (by norm_num)).1 h2
      rw [checkLoop_eq_step env sid m status i (2 ^ i - 1) n hg]
      cases hq : env.get_statement sid n with
      | error e =>
        refine ⟨1, Or.inl (by omega), ?_⟩
        simp [List.range_succ]
      | ok g =>
        cases hr : raise_if_error g.status "get-statement" with
        | error e =>
          refine ⟨1, Or.inl (by omega), ?_⟩
          simp [hr, List.range_succ]
        | ok u =>
          have hps : 2 ^ (i + 1) = 2 ^ i * 2 := pow_succ 2 i
          obtain ⟨L, hL, htr⟩ := ih g.status (i + 1) (2 ^ i - 1 + 2 ^ i) (n + 1)
            (by omega) (by omega)
          refine ⟨L + 1, Or.inl ?_, ?_⟩
          · rcases hL with hh | hh <;> omega
          · simp only [hr]
            rw [htr, List.range_succ_eq_map, List.map_cons, List.map_map]
            have hfun : (fun j => min (2 ^ (i + 1 + j)) (m - (2 ^ (i + 1 + j) - 1))) =
                ((fun j => min (2 ^ (i + j)) (m - (2 ^ (i + j) - 1))) ∘ Nat.succ) := by
              funext j
              simp only [Function.comp]
              rw [show i + Nat.succ j = i + 1 + j from by omega]
            rw [hfun]
            simp

/-- C4: for every `max_wait_secs`, the poller's sleep trace is exactly the
deterministic doubling schedule — the `j`-th sleep is
`min (2 ^ j) (max_wait_secs - (2 ^ j - 1))`, i.e. backoff `1, 2, 4, 8, …`
capped at the remaining budget (`max_wait_secs` minus the accumulated
scheduled wait `2 ^ j - 1`) — cut off after some `L` iterations with
`L ≤ ⌈log2 (max_wait_secs + 1)⌉ + 1`. -/
theorem check_status_backoff_trace (env : Env) (resp : ExecuteStatementResponse)
    (m : Nat) :
    ∃ L, L ≤ Nat.clog 2 (m + 1) + 1 ∧
      (check_analyze_table_statement_status env resp m).2 =
        (List.range L).map (fun j => min (2 ^ j) (m - (2 ^ j - 1))) := by
  obtain ⟨L, hL, htr⟩ := checkLoop_trace_shape env resp.statement_id m m resp.status
    0 0 0 (by omega) (by simp)
  refine ⟨L, by rcases hL with hh | hh <;> omega, ?_⟩
  unfold check_analyze_table_statement_status
  rw [htr]
  simp
